import Mathlib

/-!
Verification of the openweathermap-client library against its specification.

The definitions below are a shallow embedding of the Python sources:

* `openweathermap_client/api_client.py` — the HTTP call engine (`_get`),
  client construction (`__init__`), diagnostic URI building, and the
  facade operations (`get_current_weather_within_box`,
  `get_current_weather_within_circle`), and `_deserialize_with_schema`;
* `openweathermap_client/utils.py` — `dt_from_timestamp`;
* `openweathermap_client/schemas.py` — the marshmallow (2.x) schema
  declarations interpreted by a generic deserialization routine.

Machine integers are modelled as `Int`/`Nat` (Python integers are unbounded),
fallible code returns `Option`/`Except`, and the mutation of the callers
`box` list in `get_current_weather_within_box` is modelled by returning the
final state of that list alongside the result.
-/

namespace OWM

/-! ### The HTTP call engine: `OpenWeatherMapClient._get`

A transport behaviour maps the 1-based attempt index to what
`requests.get` does on that attempt: raise a connection/timeout error, or
return a response with a given HTTP status code. -/

/-- Result of one `requests.get` call: a connection/timeout exception or a
response carrying an HTTP status code. -/
inductive TResult where
  | connError
  | response (status : Nat)
deriving DecidableEq, Repr

/-- Outcome of `_get`: the returned response together with the final value of
`last_uri_call_tries`, or one of the exceptions the method can raise.
`unboundLocalError` models the Python `UnboundLocalError` raised by
`return response` when the retry loop body never executed. -/
inductive GetOutcome where
  | ok (status : Nat) (tries : Nat)
  | clientError (tries : Nat)
  | accessLimitError (tries : Nat)
  | httpError (status : Nat) (tries : Nat)
  | unboundLocalError
deriving DecidableEq, Repr

/-- One iteration of the `while not is_success and tries < max_retries` loop
of `_get`, entered with `last_uri_call_tries` already incremented to `tries`.

* connection error: retry unless this was the final allowed attempt, in which
  case `OpenWeatherMapClientError` is raised;
* response with status other than 200: on the final allowed attempt, a 502
  raises `OWMClientAccessLimitationError` and otherwise
  `response.raise_for_status()` runs, which raises `requests.HTTPError`
  exactly for statuses in `[400, 600)` and is a no-op otherwise (the loop
  then exits and the response is returned); on a non-final attempt nothing
  is raised and the loop runs again;
* status 200: the loop exits (via `is_success` or the bound) and the
  response is returned. -/
def getStep (transport : Nat → TResult) (maxRetries : Int) (tries : Nat) : GetOutcome :=
  match transport tries with
  | .connError =>
      if h : (tries : Int) < maxRetries then
        getStep transport maxRetries (tries + 1)
      else
        .clientError tries
  | .response s =>
      if s = 200 then
        .ok s tries
      else
        if h : (tries : Int) < maxRetries then
          getStep transport maxRetries (tries + 1)
        else
          if s = 502 then .accessLimitError tries
          else if 400 ≤ s ∧ s < 600 then .httpError s tries
          else .ok s tries
termination_by (maxRetries - tries).toNat
decreasing_by all_goals omega

/-- `OpenWeatherMapClient._get`: resets `last_uri_call_tries` to 0 and runs
the retry loop. When `max_retries ≤ 0` the loop body never runs and
`return response` raises `UnboundLocalError`. -/
def getCall (transport : Nat → TResult) (maxRetries : Int) : GetOutcome :=
  if 0 < maxRetries then getStep transport maxRetries 1 else .unboundLocalError

/-- An attempt that receives a 200 response always returns it, whatever the
attempt index, with `last_uri_call_tries` equal to that index. -/
theorem getStep_response_200 (transport : Nat → TResult) (N : Int) (t : Nat)
    (h : transport t = .response 200) : getStep transport N t = .ok 200 t := by
  rw [getStep, h]
  simp

/-- An attempt strictly before the final allowed one that receives either a
connection error or a non-200 status silently runs the loop again. -/
theorem getStep_retry (transport : Nat → TResult) (N : Int) (t : Nat)
    (hlt : (t : Int) < N)
    (hnot : ∀ s, transport t = .response s → s ≠ 200) :
    getStep transport N t = getStep transport N (t + 1) := by
  rw [getStep]
  cases htr : transport t with
  | connError => simp [hlt]
  | response s =>
      have hs : s ≠ 200 := hnot s htr
      simp [hs, hlt]

/-- If no attempt before `t` received a 200 response, the loop reaches
attempt `t` (for `1 ≤ t ≤ max_retries`). -/
theorem getCall_reaches (transport : Nat → TResult) (N : Int) (t : Nat)
    (h1 : 1 ≤ t) (h2 : (t : Int) ≤ N)
    (hprev : ∀ u, 1 ≤ u → u < t → ∀ s, transport u = .response s → s ≠ 200) :
    getCall transport N = getStep transport N t := by
  induction t with
  | zero => omega
  | succ k ih =>
      by_cases hk : k = 0
      · subst hk
        have : (0 : Int) < N := by omega
        simp [getCall, this]
      · have hk1 : 1 ≤ k := by omega
        have hkN : (k : Int) ≤ N := by push_cast at h2 ⊢; omega
        have hkprev : ∀ u, 1 ≤ u → u < k → ∀ s, transport u = .response s → s ≠ 200 := by
          intro u hu1 hu2 s hs
          exact hprev u hu1 (by omega) s hs
        have hstep : getStep transport N k = getStep transport N (k + 1) :=
          getStep_retry transport N k (by push_cast at h2 ⊢; omega)
            (fun s hs => hprev k hk1 (by omega) s hs)
        rw [ih hk1 hkN hkprev, hstep]

/-- A transport that keeps answering the same non-200 status makes the loop
retry up to the final attempt, where the status is classified: 502 raises
the access-limitation error, statuses in `[400, 600)` raise the HTTP status
error, and any other status is returned as the response. -/
theorem getStep_const_status (s : Nat) (hs : s ≠ 200) (N : Int) :
    ∀ (k t : Nat), (N - t).toNat = k → 1 ≤ t → (t : Int) ≤ N →
    getStep (fun _ => .response s) N t =
      (if s = 502 then .accessLimitError N.toNat
       else if 400 ≤ s ∧ s < 600 then .httpError s N.toNat
       else .ok s N.toNat) := by
  intro k
  induction k with
  | zero =>
      intro t hk h1 h2
      have ht : (t : Int) = N := by omega
      have htn : N.toNat = t := by omega
      rw [getStep]
      simp [hs, htn, ht]
  | succ m ih =>
      intro t hk h1 h2
      have hlt : (t : Int) < N := by omega
      rw [getStep_retry (fun _ => .response s) N t hlt
        (by intro u hu; cases hu; exact hs)]
      exact ih (t + 1) (by omega) (by omega) (by push_cast; omega)

/-! ### Client construction: `OpenWeatherMapClient.__init__` -/

/-- The client state set up by `__init__` that the claims refer to. -/
structure Client where
  api_key : String
  host : String
  max_retries : Int
  units : String
  base_uri : String
deriving DecidableEq, Repr

/-- `OpenWeatherMapClient.__init__`: raises `OWMClientKeyNotDefinedError` when
`api_key` is `None`, defaults an empty host to `api.openweathermap.org`, and
stores `max_retries` exactly as passed, with no validation or clamping. -/
def mkClient (apiKey : Option String) (useSsl : Bool) (host : String)
    (maxRetries : Int) (units : String) : Except String Client :=
  match apiKey with
  | none => .error "OWMClientKeyNotDefinedError"
  | some key =>
      let host2 := if host = "" then "api.openweathermap.org" else host
      .ok { api_key := key
            host := host2
            max_retries := maxRetries
            units := units
            base_uri := "http" ++ (if useSsl then "s" else "") ++ "://" ++ host2 }

/-- The transport of the §8 scenario for C1: connection failures on the first
two attempts, then a 200 response. -/
def failTwiceTransport : Nat → TResult :=
  fun t => if t ≤ 2 then .connError else .response 200

/-- The transport for the C3 counterexample: a 404 response on the first
attempt, then a 200 response. -/
def notFoundThenOkTransport : Nat → TResult :=
  fun t => if t = 1 then .response 404 else .response 200

/-- Claim C1: whenever an attempt of `_get` receives a 200 response, the
response is returned to the caller regardless of the attempt index
(formally: if no attempt before `t` received a 200 — which is exactly the
condition for the loop to reach attempt `t` — and attempt `t` within the
allowed bound receives a 200, the call returns it with
`last_uri_call_tries = t`); in particular, with `max_retries = 3` and a
transport that raises connection errors twice and then returns 200, the call
returns the 200 response with an attempt count of 3. -/
theorem C1_status_200_always_returned :
    (∀ (transport : Nat → TResult) (N : Int) (t : Nat),
      1 ≤ t → (t : Int) ≤ N →
      (∀ u, 1 ≤ u → u < t → ∀ s, transport u = .response s → s ≠ 200) →
      transport t = .response 200 →
      getCall transport N = .ok 200 t)
    ∧ getCall failTwiceTransport 3 = .ok 200 3 := by
  constructor
  · intro transport N t h1 h2 hprev h200
    rw [getCall_reaches transport N t h1 h2 hprev]
    exact getStep_response_200 transport N t h200
  · rw [getCall_reaches failTwiceTransport 3 3 (by omega) (by omega)
      (by
        intro u hu1 hu2 s hs
        have hu : u ≤ 2 := by omega
        simp [failTwiceTransport, hu] at hs)]
    exact getStep_response_200 failTwiceTransport 3 3 (by simp [failTwiceTransport])

/-- Witness for C1 at a concrete input: a transport that 200s on attempt 2 out
of 5 allowed attempts returns the 200 with 2 tries recorded. -/
theorem C1_status_200_always_returned_witness :
    getCall (fun u => if u = 2 then .response 200 else .connError) 5 = .ok 200 2 :=
  C1_status_200_always_returned.1 _ 5 2 (by omega) (by omega)
    (by
      intro u hu1 hu2 s hs
      have : u = 1 := by omega
      subst this
      simp at hs)
    (by simp)

/-- Claim C2: with a transport that returns 502 on every attempt and
`max_retries = N ≥ 1`, `_get` raises `OWMClientAccessLimitationError` after
exactly N attempts — a 502 on a non-final attempt does not raise but leads to
the next attempt, and the 502 on the final attempt raises rather than
retrying. -/
theorem C2_always_502_raises_access_limitation (N : Int) (hN : 1 ≤ N) :
    getCall (fun _ => .response 502) N = .accessLimitError N.toNat
    ∧ (∀ t : Nat, 1 ≤ t → (t : Int) < N →
        getStep (fun _ => .response 502) N t = getStep (fun _ => .response 502) N (t + 1)) := by
  constructor
  · have h0 : (0 : Int) < N := by omega
    rw [getCall, if_pos h0]
    rw [getStep_const_status 502 (by omega) N (N - 1).toNat 1 (by omega) (by omega) (by omega)]
    simp
  · intro t h1 hlt
    exact getStep_retry (fun _ => .response 502) N t hlt
      (by intro s hs; cases hs; omega)

/-- Witness for C2 at a concrete input: `max_retries = 3` with an always-502
transport raises the access limitation error with 3 attempts recorded. -/
theorem C2_always_502_raises_access_limitation_witness :
    getCall (fun _ => TResult.response 502) 3 = .accessLimitError 3 := by
  have h := (C2_always_502_raises_access_limitation 3 (by omega)).1
  simpa using h

/-- Counterexample to claim C3: a 404 on a non-final attempt does not fail the
call; the request is silently re-sent, and here the second attempt answers
200, so the call succeeds with 2 attempts recorded instead of failing with
the HTTP error of the first attempt. -/
theorem C3_counterexample_non_final_404_is_retried :
    getCall notFoundThenOkTransport 2 = .ok 200 2
    ∧ getCall notFoundThenOkTransport 2 ≠ .httpError 404 1 := by
  have h : getCall notFoundThenOkTransport 2 = .ok 200 2 := by
    rw [getCall_reaches notFoundThenOkTransport 2 2 (by omega) (by omega)
      (by
        intro u hu1 hu2 s hs
        have hu : u = 1 := by omega
        subst hu
        simp [notFoundThenOkTransport] at hs
        omega)]
    exact getStep_response_200 notFoundThenOkTransport 2 2 (by simp [notFoundThenOkTransport])
  exact ⟨h, by rw [h]; simp⟩

/-- Claim C3 as amended: a non-200 status received on a non-final attempt does
not fail the call; the loop silently re-sends the request on the next
attempt (so the call fails with a status error only when a failing status
arrives on the final attempt). -/
theorem C3_amended_non_final_status_retries (transport : Nat → TResult)
    (N : Int) (t : Nat) (s : Nat)
    (hlt : (t : Int) < N) (hs : transport t = .response s) (h200 : s ≠ 200) :
    getStep transport N t = getStep transport N (t + 1) :=
  getStep_retry transport N t hlt
    (by intro u hu; rw [hs] at hu; cases hu; exact h200)

/-- Witness for the amended C3 at a concrete input. -/
theorem C3_amended_non_final_status_retries_witness :
    getStep notFoundThenOkTransport 3 1 = getStep notFoundThenOkTransport 3 2 :=
  C3_amended_non_final_status_retries notFoundThenOkTransport 3 1 404
    (by omega) (by simp [notFoundThenOkTransport]) (by omega)

/-- Claim C4 evaluated at the failing input (the claim itself states intended
behaviour that the code does not implement): `__init__` stores
`max_retries = -1` unchanged instead of falling back to the default 5 that
the test suite of the repository asserts, and `_get` with a non-positive
`max_retries` performs zero attempts, terminating with `UnboundLocalError`
instead of making at least one request. -/
theorem C4_max_retries_not_validated :
    mkClient (some "key") true "" (-1) "metric" =
      .ok { api_key := "key", host := "api.openweathermap.org", max_retries := -1,
            units := "metric", base_uri := "https://api.openweathermap.org" }
    ∧ getCall (fun _ => .response 200) (-1) = .unboundLocalError
    ∧ getCall (fun _ => .response 200) 0 = .unboundLocalError := by
  refine ⟨rfl, ?_, ?_⟩ <;> simp [getCall]

/-- Counterexample to claim C5: a 201 status on the final attempt is not
raised as an HTTP status error — `raise_for_status` only raises for statuses
in `[400, 600)` — so the 201 response is returned to the caller. -/
theorem C5_counterexample_201_returned :
    getCall (fun _ => .response 201) 1 = .ok 201 1
    ∧ getCall (fun _ => .response 201) 1 ≠ .httpError 201 1 := by
  have h : getCall (fun _ => .response 201) 1 = .ok 201 1 := by
    rw [getCall, if_pos (by omega)]
    rw [getStep_const_status 201 (by omega) 1 0 1 (by omega) (by omega) (by omega)]
    simp
  exact ⟨h, by rw [h]; simp⟩

/-- Claim C5 as amended: a response with a status other than 200 and 502 on
the final attempt raises the generic HTTP status error carrying that status
exactly when the status lies in `[400, 600)`; any other such status (e.g.
201, 204, 3xx) is returned to the caller as the response. -/
theorem C5_amended_final_status_classification (s : Nat) (N : Int)
    (h200 : s ≠ 200) (h502 : s ≠ 502) (hN : 1 ≤ N) :
    getCall (fun _ => .response s) N =
      (if 400 ≤ s ∧ s < 600 then .httpError s N.toNat else .ok s N.toNat) := by
  rw [getCall, if_pos (by omega)]
  rw [getStep_const_status s h200 N (N - 1).toNat 1 (by omega) (by omega) (by omega)]
  simp [h502]

/-- Witness for the amended C5 at a concrete input: a constant 404 with
`max_retries = 2` raises the HTTP status error carrying 404 after 2
attempts. -/
theorem C5_amended_final_status_classification_witness :
    getCall (fun _ => TResult.response 404) 2 = .httpError 404 2 := by
  have h := C5_amended_final_status_classification 404 2 (by omega) (by omega) (by omega)
  simpa using h

/-! ### Query parameter values and Python string helpers -/

/-- A query parameter value as passed to the facade methods: a Python int or
a string (the embedding keeps the two cases the claims exercise). -/
inductive Pv where
  | int (n : Int)
  | str (s : String)
deriving DecidableEq, Repr

/-- Python `str()` on a parameter value. -/
def pvToString : Pv → String
  | .int n => toString n
  | .str s => s

/-- Python `sep.join(parts)`. -/
def pyJoin (sep : String) : List String → String
  | [] => ""
  | [x] => x
  | x :: y :: xs => x ++ sep ++ pyJoin sep (y :: xs)

/-! ### Diagnostic URI building in `_get` (claim C9) -/

/-- One `k=v` piece of the human readable URI built at the top of `_get`,
with the `appid` credential value replaced by the fixed placeholder. -/
def redactParam (k v : String) : String :=
  k ++ "=" ++ (if k = "appid" then "XxX" else v)

/-- `self.last_uri_call`: the uri joined with the redacted query string. -/
def lastUriCall (uri : String) (params : List (String × String)) : String :=
  uri ++ "?" ++ pyJoin "&" (params.map fun p => redactParam p.1 p.2)

/-- The query parameters `_get_data` sends: the parameters of the operation
followed by the base parameters `appid` and `units` added by `update`. -/
def getDataParams (userParams : List (String × String)) (apiKey units : String) :
    List (String × String) :=
  userParams ++ [("appid", apiKey), ("units", units)]

/-- Every element of a joined list occurs contiguously in the join. -/
theorem pyJoin_mem_infix (sep : String) (l : List String) (x : String)
    (hx : x ∈ l) :
    ∃ pre post : List Char, (pyJoin sep l).data = pre ++ x.data ++ post := by
  induction l with
  | nil => cases hx
  | cons a rest ih =>
      cases rest with
      | nil =>
          rcases List.mem_singleton.mp hx with rfl
          exact ⟨[], [], by simp [pyJoin]⟩
      | cons b bs =>
          rcases List.mem_cons.mp hx with rfl | hmem
          · exact ⟨[], sep.data ++ (pyJoin sep (b :: bs)).data, by simp [pyJoin]⟩
          · obtain ⟨pre, post, hpp⟩ := ih hmem
            exact ⟨a.data ++ sep.data ++ pre, post, by simp [pyJoin, hpp]⟩

/-! ### `get_current_weather_within_circle` (claim C8) -/

/-- The query parameter construction of `get_current_weather_within_circle`:
`lat` and `lon`, then `cnt` clamped by `max(0, min(cnt, 50))`, then the
`cluster` validation (`ValueError` outside None/yes/no), then `lang`. -/
def circleParams (lat lon : Pv) (cluster : Option String) (cnt : Int)
    (lang : Option String) : Except String (List (String × Pv)) :=
  let qp := [("lat", lat), ("lon", lon), ("cnt", Pv.int (max 0 (min cnt 50)))]
  if cluster = none ∨ cluster = some "yes" ∨ cluster = some "no" then
    let qp2 := qp ++ (match cluster with
      | some c => [("cluster", Pv.str c)]
      | none => [])
    .ok (qp2 ++ (match lang with
      | some l => [("lang", Pv.str l)]
      | none => []))
  else
    .error "Invalid cluster"

/-- Whether an `Except` result is a success. -/
def isOkE : Except String (List (String × Pv)) → Bool
  | .ok _ => true
  | .error _ => false

/-- Claim C8: the circle search clamps `cnt` into `[0, 50]` before sending it
and never rejects the call because of `cnt`: the sent value is
`max 0 (min cnt 50)` for every `cnt`, success is independent of `cnt`,
`cnt = -5` is sent as 0, `cnt = 1000` as 50, and a `cnt` already in `[0, 50]`
is sent unchanged. -/
theorem C8_circle_cnt_clamped :
    (∀ (lat lon : Pv) (cnt : Int),
      circleParams lat lon none cnt none =
        .ok [("lat", lat), ("lon", lon), ("cnt", Pv.int (max 0 (min cnt 50)))])
    ∧ (∀ (lat lon : Pv) (cluster : Option String) (cnt cnt2 : Int) (lang : Option String),
      isOkE (circleParams lat lon cluster cnt lang) =
        isOkE (circleParams lat lon cluster cnt2 lang))
    ∧ (∀ (lat lon : Pv), circleParams lat lon none (-5) none =
        .ok [("lat", lat), ("lon", lon), ("cnt", Pv.int 0)])
    ∧ (∀ (lat lon : Pv), circleParams lat lon none 1000 none =
        .ok [("lat", lat), ("lon", lon), ("cnt", Pv.int 50)])
    ∧ (∀ (lat lon : Pv) (cnt : Int), 0 ≤ cnt → cnt ≤ 50 →
        circleParams lat lon none cnt none =
          .ok [("lat", lat), ("lon", lon), ("cnt", Pv.int cnt)]) := by
  refine ⟨?_, ?_, ?_, ?_, ?_⟩
  · intro lat lon cnt
    simp [circleParams]
  · intro lat lon cluster cnt cnt2 lang
    by_cases h : cluster = none ∨ cluster = some "yes" ∨ cluster = some "no" <;>
      simp [circleParams, h, isOkE]
  · intro lat lon
    simp [circleParams]
  · intro lat lon
    simp [circleParams]
  · intro lat lon cnt h0 h50
    have : max 0 (min cnt 50) = cnt := by omega
    simp [circleParams, this]

/-- Witness for C8 at a concrete input: `cnt = 37` within `[0, 50]` is sent
unchanged. -/
theorem C8_circle_cnt_clamped_witness :
    circleParams (Pv.int 44) (Pv.int 1) none 37 none =
      .ok [("lat", Pv.int 44), ("lon", Pv.int 1), ("cnt", Pv.int 37)] :=
  C8_circle_cnt_clamped.2.2.2.2 (Pv.int 44) (Pv.int 1) 37 (by omega) (by omega)

/-- Claim C9: the diagnostic `last_uri_call` masks the `appid` value with the
fixed placeholder while keeping every query parameter present, so two calls
that differ only in the api key produce identical diagnostic strings. -/
theorem C9_last_uri_call_redacts_appid :
    (∀ (uri : String) (userParams : List (String × String)) (key1 key2 units : String),
      lastUriCall uri (getDataParams userParams key1 units) =
        lastUriCall uri (getDataParams userParams key2 units))
    ∧ (∀ v : String, redactParam "appid" v = "appid=XxX")
    ∧ (∀ (uri : String) (params : List (String × String)) (k v : String),
        (k, v) ∈ params →
        ∃ pre post : List Char,
          (lastUriCall uri params).data = pre ++ (redactParam k v).data ++ post) := by
  refine ⟨?_, ?_, ?_⟩
  · intro uri userParams key1 key2 units
    simp [lastUriCall, getDataParams, redactParam]
  · intro v
    simp [redactParam]
  · intro uri params k v hmem
    have hx : redactParam k v ∈ params.map fun p => redactParam p.1 p.2 := by
      exact List.mem_map.mpr ⟨(k, v), hmem, rfl⟩
    obtain ⟨pre, post, hpp⟩ :=
      pyJoin_mem_infix "&" (params.map fun p => redactParam p.1 p.2) (redactParam k v) hx
    exact ⟨(uri ++ "?").data ++ pre, post, by simp [lastUriCall, hpp]⟩

/-- Witness for C9 at a concrete input: the masked form of a concrete `appid`
parameter appears in the diagnostic string of a concrete call. -/
theorem C9_last_uri_call_redacts_appid_witness :
    ∃ pre post : List Char,
      (lastUriCall "https://api.openweathermap.org/data/2.5/weather"
        [("id", "6434841"), ("appid", "secret-key"), ("units", "metric")]).data =
        pre ++ (redactParam "appid" "secret-key").data ++ post :=
  C9_last_uri_call_redacts_appid.2.2
    "https://api.openweathermap.org/data/2.5/weather"
    [("id", "6434841"), ("appid", "secret-key"), ("units", "metric")]
    "appid" "secret-key" (by simp)

/-! ### `get_current_weather_within_box` (claim C10) -/

/-- `get_current_weather_within_box` up to the delegation to `_get_data`.
The Python method mutates its caller-supplied `box` list in place with
`box.extend([zoom])`; the embedding returns the final state of that list
alongside the outcome. The length check happens before the mutation, the
`cluster` validation after it. -/
def withinBoxParams (box : List Pv) (zoom : Pv) (cluster : Option String)
    (lang : Option String) : List Pv × Except String (List (String × Pv)) :=
  if box.length ≠ 4 then
    (box, .error "Invalid box")
  else
    let box2 := box ++ [zoom]
    let qp := [("bbox", Pv.str (pyJoin "," (box2.map pvToString)))]
    if cluster = none ∨ cluster = some "yes" ∨ cluster = some "no" then
      let qp2 := qp ++ (match cluster with
        | some c => [("cluster", Pv.str c)]
        | none => [])
      (box2, .ok (qp2 ++ (match lang with
        | some l => [("lang", Pv.str l)]
        | none => [])))
    else
      (box2, .error "Invalid cluster")

/-- Claim C10: for every 4-element `box`, the bounding-box operation appends
the zoom value to the callers list, leaving it with 5 elements after the
call whether the call then succeeds or fails on the `cluster` check. -/
theorem C10_box_argument_mutated (box : List Pv) (zoom : Pv)
    (cluster lang : Option String) (h : box.length = 4) :
    (withinBoxParams box zoom cluster lang).1 = box ++ [zoom]
    ∧ (withinBoxParams box zoom cluster lang).1.length = 5 := by
  have hbox : ¬ box.length ≠ 4 := by omega
  by_cases hc : cluster = none ∨ cluster = some "yes" ∨ cluster = some "no" <;>
    simp [withinBoxParams, hbox, hc, h]

/-- Witness for C10 at a concrete input: the callers 4-element list ends up
with 5 elements even though the call fails on an invalid `cluster`. -/
theorem C10_box_argument_mutated_witness :
    (withinBoxParams [Pv.int 12, Pv.int 32, Pv.int 15, Pv.int 37] (Pv.int 10)
      (some "maybe") none).1 =
      [Pv.int 12, Pv.int 32, Pv.int 15, Pv.int 37] ++ [Pv.int 10]
    ∧ (withinBoxParams [Pv.int 12, Pv.int 32, Pv.int 15, Pv.int 37] (Pv.int 10)
      (some "maybe") none).1.length = 5 :=
  C10_box_argument_mutated [Pv.int 12, Pv.int 32, Pv.int 15, Pv.int 37]
    (Pv.int 10) (some "maybe") none (by simp)

/-! ### The proleptic Gregorian calendar of Python `datetime`

`utils.dt_from_timestamp` delegates to `datetime.datetime.fromtimestamp`,
and `datetime.timestamp()` computes `(self - epoch)` via the ordinal produced
by `_ymd2ord`. The calendar arithmetic below is that of Python itself
(`datetime._ymd2ord`, `datetime._ord2ymd`, `datetime._is_leap`,
`datetime._days_before_year`, `datetime._days_before_month`). -/

/-- `datetime._is_leap`. -/
def isLeap (y : Nat) : Bool :=
  y % 4 == 0 && (y % 100 != 0 || y % 400 == 0)

/-- `datetime._DAYS_BEFORE_MONTH` (cumulative days before each month in a
non-leap year), as a table on months 1..12. -/
def daysBeforeMonth : Nat → Nat
  | 1 => 0 | 2 => 31 | 3 => 59 | 4 => 90 | 5 => 120 | 6 => 151
  | 7 => 181 | 8 => 212 | 9 => 243 | 10 => 273 | 11 => 304 | 12 => 334
  | _ => 0

/-- `datetime._DAYS_IN_MONTH`, as a table on months 1..12 (February without
the leap day, added separately as in the source). -/
def daysInMonthTable : Nat → Nat
  | 1 => 31 | 2 => 28 | 3 => 31 | 4 => 30 | 5 => 31 | 6 => 30
  | 7 => 31 | 8 => 31 | 9 => 30 | 10 => 31 | 11 => 30 | 12 => 31
  | _ => 0

/-- `datetime._days_before_year`: days before January 1 of `y`, with
`_ymd2ord(1, 1, 1) = 1`. -/
def daysBeforeYear (y : Nat) : Nat :=
  (y - 1) * 365 + (y - 1) / 4 - (y - 1) / 100 + (y - 1) / 400

/-- `datetime._ymd2ord`: the proleptic Gregorian ordinal of a date. -/
def ymd2ord (y m d : Nat) : Nat :=
  daysBeforeYear y + (daysBeforeMonth m + (if 2 < m ∧ isLeap y then 1 else 0)) + d

/-- The month/day part of `datetime._ord2ymd`: from the 0-based day of year
`r` and the leap flag, estimate the month as `(r + 50) >> 5` and correct it
against the days-before-month table. -/
def ord2md (leap : Bool) (r : Nat) : Nat × Nat :=
  let m0 := (r + 50) / 32
  let pre0 := daysBeforeMonth m0 + (if 2 < m0 ∧ leap then 1 else 0)
  if r < pre0 then
    let m1 := m0 - 1
    let pre1 := pre0 - (daysInMonthTable m1 + (if m1 = 2 ∧ leap then 1 else 0))
    (m1, r - pre1 + 1)
  else
    (m0, r - pre0 + 1)

/-- The body of `datetime._ord2ymd` after the chain of `divmod`s of the
0-based ordinal by the lengths of the 400-year, 100-year, 4-year and 1-year
cycles (`a`, `b`, `c`, `e` are the quotients `n400`, `n100`, `n4`, `n1`, and
`r` the remaining 0-based day of year). The special case `n1 == 4 or
n100 == 4` is December 31 of a leap year closing a cycle. -/
def ord2ymdCore (a b c e r : Nat) : Nat × Nat × Nat :=
  let year := a * 400 + b * 100 + c * 4 + e + 1
  if e = 4 ∨ b = 4 then
    (year - 1, 12, 31)
  else
    let leap := e == 3 && (c != 24 || b == 3)
    let md := ord2md leap r
    (year, md.1, md.2)

/-- `datetime._ord2ymd`: year, month and day of a proleptic Gregorian
ordinal, through `divmod` by 146097, 36524, 1461 and 365. -/
def ord2ymd (n : Nat) : Nat × Nat × Nat :=
  ord2ymdCore ((n - 1) / 146097) ((n - 1) % 146097 / 36524)
    ((n - 1) % 146097 % 36524 / 1461) ((n - 1) % 146097 % 36524 % 1461 / 365)
    ((n - 1) % 146097 % 36524 % 1461 % 365)

set_option maxRecDepth 4000 in
/-- The month/day estimation is exact: for every day of year `r < 365`
(day 366 of a leap year is the `n1 == 4` special case and never reaches the
table), the month is in 1..12 and the days-before-month sum undoes it. -/
theorem ord2md_inverse : ∀ (leap : Bool), ∀ r < 365,
    daysBeforeMonth (ord2md leap r).1
      + (if 2 < (ord2md leap r).1 ∧ leap = true then 1 else 0)
      + (ord2md leap r).2 = r + 1
    ∧ 1 ≤ (ord2md leap r).1 ∧ (ord2md leap r).1 ≤ 12 := by decide

/-- `_days_before_year` with the quotients of the 4/100/400-year cycles made
explicit, so that later proofs stay within linear arithmetic. -/
theorem daysBeforeYear_linear (z q4 q100 q400 : Nat)
    (h4 : 4 * q4 ≤ z ∧ z < 4 * q4 + 4)
    (h100 : 100 * q100 ≤ z ∧ z < 100 * q100 + 100)
    (h400 : 400 * q400 ≤ z ∧ z < 400 * q400 + 400) :
    daysBeforeYear (z + 1) = z * 365 + q4 - q100 + q400 := by
  have e4 : z / 4 = q4 := by omega
  have e100 : z / 100 = q100 := by omega
  have e400 : z / 400 = q400 := by omega
  simp only [daysBeforeYear, Nat.add_sub_cancel, e4, e100, e400]

/-- `_ymd2ord` undoes the body of `_ord2ymd`: under the bounds that the
`divmod` chain guarantees for the quotients and remainders, converting the
reassembled date back to an ordinal recovers the 0-based ordinal plus one,
and the produced year lies in the Python supported range 1..9999. -/
theorem ord2ymdCore_inverse (a b c e r : Nat) (hr : r < 365)
    (h3 : e * 365 + r ≤ 1460)
    (h2 : c * 1461 + (e * 365 + r) ≤ 36523)
    (h1 : b * 36524 + (c * 1461 + (e * 365 + r)) ≤ 146096)
    (hn : a * 146097 + (b * 36524 + (c * 1461 + (e * 365 + r))) ≤ 3652058) :
    ymd2ord (ord2ymdCore a b c e r).1 (ord2ymdCore a b c e r).2.1
        (ord2ymdCore a b c e r).2.2
      = a * 146097 + b * 36524 + c * 1461 + e * 365 + r + 1
    ∧ 1 ≤ (ord2ymdCore a b c e r).1 ∧ (ord2ymdCore a b c e r).1 ≤ 9999 := by
  by_cases hA : e = 4 ∨ b = 4
  · rcases hA with h4 | h4
    · subst h4
      have hr0 : r = 0 := by omega
      subst hr0
      have hres : ord2ymdCore a b c 4 0 = (a * 400 + b * 100 + c * 4 + 4 + 1 - 1, 12, 31) := by
        simp [ord2ymdCore]
      rw [hres]
      dsimp only
      rw [show a * 400 + b * 100 + c * 4 + 4 + 1 - 1 = (a * 400 + b * 100 + c * 4 + 3) + 1
        from by omega]
      simp only [ymd2ord]
      rw [daysBeforeYear_linear (a * 400 + b * 100 + c * 4 + 3) (a * 100 + b * 25 + c)
        (a * 4 + b) a (by omega) (by omega) (by omega)]
      simp only [isLeap, daysBeforeMonth, Bool.and_eq_true, Bool.or_eq_true, beq_iff_eq,
        bne_iff_ne, decide_eq_true_eq]
      split_ifs with hL <;> omega
    · subst h4
      have hc : c = 0 := by omega
      have he : e = 0 := by omega
      have hr0 : r = 0 := by omega
      subst hc; subst he; subst hr0
      have hres : ord2ymdCore a 4 0 0 0 = (a * 400 + 4 * 100 + 0 * 4 + 0 + 1 - 1, 12, 31) := by
        simp [ord2ymdCore]
      rw [hres]
      dsimp only
      rw [show a * 400 + 4 * 100 + 0 * 4 + 0 + 1 - 1 = (a * 400 + 399) + 1 from by omega]
      simp only [ymd2ord]
      rw [daysBeforeYear_linear (a * 400 + 399) (a * 100 + 99) (a * 4 + 3) a
        (by omega) (by omega) (by omega)]
      simp only [isLeap, daysBeforeMonth, Bool.and_eq_true, Bool.or_eq_true, beq_iff_eq,
        bne_iff_ne, decide_eq_true_eq]
      split_ifs with hL <;> omega
  · have hres : ord2ymdCore a b c e r =
        (a * 400 + b * 100 + c * 4 + e + 1,
         (ord2md (e == 3 && (c != 24 || b == 3)) r).1,
         (ord2md (e == 3 && (c != 24 || b == 3)) r).2) := by
      simp only [ord2ymdCore, if_neg hA]
    rw [hres]
    dsimp only
    obtain ⟨hsum, hm1, hm2⟩ := ord2md_inverse (e == 3 && (c != 24 || b == 3)) r hr
    have hleap : isLeap (a * 400 + b * 100 + c * 4 + e + 1)
        = (e == 3 && (c != 24 || b == 3)) := by
      rw [Bool.eq_iff_iff]
      simp only [isLeap, Bool.and_eq_true, Bool.or_eq_true, beq_iff_eq,
        bne_iff_ne, decide_eq_true_eq]
      omega
    simp only [ymd2ord, hleap]
    rw [daysBeforeYear_linear (a * 400 + b * 100 + c * 4 + e) (a * 100 + b * 25 + c)
      (a * 4 + b) a (by omega) (by omega) (by omega)]
    split_ifs at hsum ⊢ with hL <;> omega

/-- `_ymd2ord` undoes `_ord2ymd` on every ordinal in the Python supported
range (1-01-01 through 9999-12-31), and the year produced stays in range. -/
theorem ord2ymd_inverse (n : Nat) (hn1 : 1 ≤ n) (hn2 : n ≤ 3652059) :
    ymd2ord (ord2ymd n).1 (ord2ymd n).2.1 (ord2ymd n).2.2 = n
    ∧ 1 ≤ (ord2ymd n).1 ∧ (ord2ymd n).1 ≤ 9999 := by
  have h := ord2ymdCore_inverse ((n - 1) / 146097) ((n - 1) % 146097 / 36524)
    ((n - 1) % 146097 % 36524 / 1461) ((n - 1) % 146097 % 36524 % 1461 / 365)
    ((n - 1) % 146097 % 36524 % 1461 % 365)
    (by omega) (by omega) (by omega) (by omega) (by omega)
  rw [ord2ymd]
  refine ⟨?_, h.2.1, h.2.2⟩
  rw [h.1]
  omega

/-! ### `utils.dt_from_timestamp` under UTC, and `datetime.timestamp()` -/

/-- A Python `datetime.datetime` value: calendar fields plus the timezone as
a UTC offset in seconds (`none` for a naive datetime, `some 0` for
`timezone.utc`). Microseconds are 0 for the integer timestamps the claims
quantify over. -/
structure PyDatetime where
  year : Nat
  month : Nat
  day : Nat
  hour : Nat
  minute : Nat
  second : Nat
  utcoffset : Option Int
deriving DecidableEq, Repr

/-- `utils.dt_from_timestamp(timestamp, ts_tz=datetime.timezone.utc)` (the
form every schema converter uses): `datetime.fromtimestamp(t, tz=utc)`,
i.e. the civil UTC fields of `t` seconds since the epoch
(`_ymd2ord(1970, 1, 1) = 719163`), split as in `time.gmtime`. Python raises
for instants outside years 1..9999 (ordinals outside 1..3652059), modelled
as `none`. Division is Python floor division (`Int./` = `Int.ediv`). -/
def dt_from_timestamp_utc (timestamp : Int) : Option PyDatetime :=
  let ordinal : Int := timestamp / 86400 + 719163
  let sod : Int := timestamp % 86400
  if 1 ≤ ordinal ∧ ordinal ≤ 3652059 then
    let ymd := ord2ymd ordinal.toNat
    some { year := ymd.1, month := ymd.2.1, day := ymd.2.2,
           hour := (sod / 3600).toNat, minute := (sod % 3600 / 60).toNat,
           second := (sod % 3600 % 60).toNat, utcoffset := some 0 }
  else none

/-- `datetime.timestamp()` for an aware datetime: `(self - epoch)` in
seconds, where the date contributes `_ymd2ord(y, m, d)` days; a naive
datetime would be interpreted in the platform local timezone, which the
embedding leaves out (`none`). -/
def pyTimestamp (d : PyDatetime) : Option Int :=
  match d.utcoffset with
  | some off =>
      some (((ymd2ord d.year d.month d.day : Int) - 719163) * 86400
        + d.hour * 3600 + d.minute * 60 + d.second - off)
  | none => none

/-- Timestamp conversion round-trips on the whole representable range:
for `-62135596800 ≤ t ≤ 253402300799` (0001-01-01T00:00:00Z through
9999-12-31T23:59:59Z), converting `t` under UTC yields an aware instant
whose derived timestamp is `t` again. -/
theorem dt_from_timestamp_utc_roundtrip (t : Int)
    (hlo : -62135596800 ≤ t) (hhi : t ≤ 253402300799) :
    ∃ d, dt_from_timestamp_utc t = some d
      ∧ pyTimestamp d = some t ∧ d.utcoffset = some 0 := by
  have hcond : 1 ≤ t / 86400 + 719163 ∧ t / 86400 + 719163 ≤ 3652059 := by omega
  have hnat1 : 1 ≤ (t / 86400 + 719163).toNat := by omega
  have hnat2 : (t / 86400 + 719163).toNat ≤ 3652059 := by omega
  have hinv := ord2ymd_inverse (t / 86400 + 719163).toNat hnat1 hnat2
  refine ⟨{ year := (ord2ymd (t / 86400 + 719163).toNat).1,
            month := (ord2ymd (t / 86400 + 719163).toNat).2.1,
            day := (ord2ymd (t / 86400 + 719163).toNat).2.2,
            hour := (t % 86400 / 3600).toNat,
            minute := (t % 86400 % 3600 / 60).toNat,
            second := (t % 86400 % 3600 % 60).toNat,
            utcoffset := some 0 }, ?_, ?_, rfl⟩
  · simp only [dt_from_timestamp_utc]
    rw [if_pos hcond]
  · simp only [pyTimestamp, Option.some.injEq]
    rw [hinv.1]
    omega

/-! ### The marshmallow (2.x) schema layer

`_deserialize_with_schema` instantiates a schema class with
`many` taken from the service entry (and the marshmallow 2 default
`strict=False`), calls `load` and keeps component `[0]` (the data) of the
returned `(data, errors)` pair. A non-strict marshmallow 2 `load` collects
field errors into the second component instead of raising. The schemas of
`schemas.py` are interpreted by a generic routine over field descriptors
(target name, source key — `load_from` or the field name itself — and a
converter kind), all of them with the marshmallow default `required=False`. -/

/-- A JSON-ish value flowing through deserialization: numbers (the claims
only exercise integral ones), strings, objects, arrays, plus the Python
`datetime` values produced by the timestamp converter. -/
inductive JValue where
  | num (n : Int)
  | str (s : String)
  | obj (kvs : List (String × JValue))
  | arr (xs : List JValue)
  | pydt (d : PyDatetime)
  | null

/-- Converter kind of a declared field: `fields.Integer`, `fields.Float`,
`fields.String`, the `fields.Method` timestamp (`_from_ts`)
converter, `fields.Nested(schema)` and `fields.List(fields.Nested(schema))`.
A schema is its list of `(target, source, kind)` descriptors in declaration
order. -/
inductive FieldKind where
  | intF
  | floatF
  | strF
  | methodTs
  | nestedF (fields : List (String × String × FieldKind))
  | listF (fields : List (String × String × FieldKind))

/-- Python `dict` lookup on the raw mapping. -/
def lookupKey (kvs : List (String × JValue)) (k : String) : Option JValue :=
  match kvs with
  | [] => none
  | (k2, v) :: rest => if k2 = k then some v else lookupKey rest k

mutual

/-- Deserialize one raw value with the converter of one field, marshmallow-2
style: the deserialized value, or `none` plus an error message when the
value is invalid for the field (the field is then left out of the data). -/
def loadFieldValue (k : FieldKind) (v : JValue) : Option JValue × List String :=
  match k, v with
  | .intF, .num n => (some (.num n), [])
  | .intF, _ => (none, ["Not a valid integer."])
  | .floatF, .num n => (some (.num n), [])
  | .floatF, _ => (none, ["Not a valid number."])
  | .strF, .str s => (some (.str s), [])
  | .strF, _ => (none, ["Not a valid string."])
  | .methodTs, .num n =>
      match dt_from_timestamp_utc n with
      | some d => (some (.pydt d), [])
      | none => (none, ["Invalid timestamp."])
  | .methodTs, _ => (none, ["Invalid timestamp."])
  | .nestedF fs, .obj kvs =>
      let r := loadFields fs kvs
      (some (.obj r.1), r.2)
  | .nestedF _, _ => (none, ["Invalid type."])
  | .listF fs, .arr xs =>
      let r := loadNestedList fs xs
      (some (.arr r.1), r.2)
  | .listF _, _ => (none, ["Invalid type."])
termination_by (sizeOf k, 0)
decreasing_by all_goals (simp_wf; omega)

/-- Element-wise load of a `fields.List(fields.Nested(...))` value, order
preserved, errors of all elements collected. -/
def loadNestedList (fs : List (String × String × FieldKind)) (xs : List JValue) :
    List JValue × List String :=
  match xs with
  | [] => ([], [])
  | .obj kvs :: rest =>
      let r := loadFields fs kvs
      let rr := loadNestedList fs rest
      (.obj r.1 :: rr.1, r.2 ++ rr.2)
  | _ :: rest =>
      let rr := loadNestedList fs rest
      (.null :: rr.1, "Invalid type." :: rr.2)
termination_by (sizeOf fs, sizeOf xs + 1)
decreasing_by all_goals (simp_wf; omega)

/-- Load a raw mapping through the field descriptors of a schema, in declaration
order: a source key that is absent is skipped without error (no field of
`schemas.py` is declared `required`); a present value is deserialized, with
invalid values dropped from the data and their messages collected. -/
def loadFields (fs : List (String × String × FieldKind))
    (raw : List (String × JValue)) : List (String × JValue) × List String :=
  match fs with
  | [] => ([], [])
  | (target, source, kind) :: rest =>
      let r := loadFields rest raw
      match lookupKey raw source with
      | none => r
      | some v =>
          match loadFieldValue kind v with
          | (some d, es) => ((target, d) :: r.1, es ++ r.2)
          | (none, es) => (r.1, es ++ r.2)
termination_by (sizeOf fs, 0)
decreasing_by all_goals (simp_wf; omega)

end

/-- An instantiated marshmallow 2 schema: field descriptors, the `many`
flag passed at instantiation, and the `strict` flag (the code instantiates
with the marshmallow 2 default `strict=False`). -/
structure SchemaInst where
  fields : List (String × String × FieldKind)
  many : Bool
  strict : Bool

/-- The `(data, errors)` pair computed by marshmallow 2 `Schema.load`:
`many=True` maps a sequence element-wise in order, `many=False` maps a
single raw mapping. -/
def maLoadPair (inst : SchemaInst) (data : JValue) : JValue × List String :=
  if inst.many then
    match data with
    | .arr xs =>
        let r := loadNestedList inst.fields xs
        (.arr r.1, r.2)
    | _ => (.null, ["Invalid input type."])
  else
    match data with
    | .obj kvs =>
        let r := loadFields inst.fields kvs
        (.obj r.1, r.2)
    | _ => (.null, ["Invalid input type."])

/-- marshmallow 2 `Schema.load`: returns the `(data, errors)` pair; only a
schema instantiated with `strict=True` raises `ValidationError` on a
non-empty errors collection. -/
def maLoad (inst : SchemaInst) (data : JValue) :
    Except (List String) (JValue × List String) :=
  if inst.strict ∧ (maLoadPair inst data).2 ≠ [] then
    .error (maLoadPair inst data).2
  else
    .ok (maLoadPair inst data)

/-- A schema entry of the `_AVAILABLE_SERVICES` table: the schema class and
its `many` flag. -/
structure SchemaInfo where
  fields : List (String × String × FieldKind)
  many : Bool

/-- `OpenWeatherMapClient._deserialize_with_schema`: instantiate the schema
(`strict` stays at the marshmallow 2 default `False`), call `load`, keep
component `[0]` of the result, and turn a raised `ma.ValidationError` into
`OWMClientValidationError`. -/
def deserializeWithSchema (info : SchemaInfo) (jsonData : JValue) :
    Except String JValue :=
  match maLoad { fields := info.fields, many := info.many, strict := false } jsonData with
  | .ok r => .ok r.1
  | .error _ => .error "OWMClientValidationError"

/-! ### The schema declarations of `schemas.py` used by the claims -/

/-- `CityCoordSchema`. -/
def CityCoordSchema : List (String × String × FieldKind) :=
  [("latitude", "lat", .floatF), ("longitude", "lon", .floatF)]

/-- `CitySchema`. -/
def CitySchema : List (String × String × FieldKind) :=
  [("id", "id", .intF), ("name", "name", .strF), ("country", "country", .strF),
   ("coord", "coord", .nestedF CityCoordSchema)]

/-- `MainDataSchema` (with `temp_kf` excluded by its `Meta`). -/
def MainDataSchema : List (String × String × FieldKind) :=
  [("temp", "temp", .floatF), ("temp_min", "temp_min", .floatF),
   ("temp_max", "temp_max", .floatF), ("humidity", "humidity", .floatF),
   ("pressure", "pressure", .floatF), ("sea_level", "sea_level", .floatF),
   ("grnd_level", "grnd_level", .floatF)]

/-- `WindDataSchema`. -/
def WindDataSchema : List (String × String × FieldKind) :=
  [("direction", "deg", .floatF), ("speed", "speed", .floatF)]

/-- `WeatherDataSchema`. -/
def WeatherDataSchema : List (String × String × FieldKind) :=
  [("id", "id", .intF), ("main", "main", .strF),
   ("description", "description", .strF), ("icon", "icon", .strF)]

/-- `CloudDataSchema`. -/
def CloudDataSchema : List (String × String × FieldKind) :=
  [("clouds_all", "clouds_all", .intF)]

/-- `RainDataSchema`. -/
def RainDataSchema : List (String × String × FieldKind) :=
  [("rain_3h", "rain_3h", .floatF)]

/-- `SnowDataSchema`. -/
def SnowDataSchema : List (String × String × FieldKind) :=
  [("snow_3h", "snow_3h", .floatF)]

/-- `ForecastDataSchema`: `dt_value` converts the `dt` timestamp to a UTC
datetime while `dt_timestamp` loads the same `dt` source key unchanged. -/
def ForecastDataSchema : List (String × String × FieldKind) :=
  [("dt_value", "dt", .methodTs), ("dt_timestamp", "dt", .intF),
   ("dt_txt", "dt_txt", .strF), ("main", "main", .nestedF MainDataSchema),
   ("weather", "weather", .listF WeatherDataSchema),
   ("clouds", "clouds", .nestedF CloudDataSchema),
   ("wind", "wind", .nestedF WindDataSchema),
   ("rain", "rain", .nestedF RainDataSchema),
   ("snow", "snow", .nestedF SnowDataSchema)]

/-- Counterexample to claim C6: on a raw mapping whose `id` value is invalid
for the integer field of `CitySchema`, `_deserialize_with_schema` does not raise —
the marshmallow 2 non-strict `load` collects the violation into the errors
component, the code keeps only component `[0]`, and a record silently
missing the invalid field is returned while the recorded violation is
discarded. -/
theorem C6_counterexample_invalid_field_not_raised :
    deserializeWithSchema { fields := CitySchema, many := false }
        (.obj [("id", .str "not-an-int")]) = .ok (.obj [])
    ∧ (maLoadPair { fields := CitySchema, many := false, strict := false }
        (.obj [("id", .str "not-an-int")])).2 = ["Not a valid integer."] := by
  constructor <;>
    simp [deserializeWithSchema, maLoad, maLoadPair, CitySchema, CityCoordSchema,
      loadFields, loadFieldValue, lookupKey]

/-- Claim C6 as amended: with the non-strict marshmallow 2 load the code
uses, `_deserialize_with_schema` never raises: for every schema and every
raw input it returns the data component of `load`, discarding whatever
violations were collected; and a source key that is absent never produces an
error (no declared field of `schemas.py` is `required`, so an empty raw
mapping loads to an empty record with no violations at all). -/
theorem C6_amended_violations_discarded :
    (∀ (info : SchemaInfo) (jsonData : JValue),
      deserializeWithSchema info jsonData =
        .ok (maLoadPair { fields := info.fields, many := info.many, strict := false }
          jsonData).1)
    ∧ (∀ fs : List (String × String × FieldKind), loadFields fs [] = ([], []))
    ∧ (maLoadPair { fields := CitySchema, many := false, strict := false }
        (.obj [("id", .str "x"), ("name", .num 7)])).2 =
        ["Not a valid integer.", "Not a valid string."] := by
  refine ⟨?_, ?_, ?_⟩
  · intro info jsonData
    simp [deserializeWithSchema, maLoad]
  · intro fs
    induction fs with
    | nil => simp [loadFields]
    | cons f rest ih =>
        obtain ⟨target, source, kind⟩ := f
        simp [loadFields, lookupKey, ih]
  · simp [maLoadPair, CitySchema, CityCoordSchema, loadFields, loadFieldValue, lookupKey]

/-- Witness for the amended C6 at a concrete input: a raw mapping with only
a name loads to a record without raising. -/
theorem C6_amended_violations_discarded_witness :
    deserializeWithSchema { fields := CitySchema, many := false }
        (.obj [("name", .str "Montcuq")]) =
      .ok (maLoadPair { fields := CitySchema, many := false, strict := false }
        (.obj [("name", .str "Montcuq")])).1 :=
  C6_amended_violations_discarded.1 { fields := CitySchema, many := false }
    (.obj [("name", .str "Montcuq")])

/-- Counterexample to claim C7: the Python `datetime` type cannot represent years
outside 1..9999, so `datetime.fromtimestamp(t, tz=utc)` raises (modelled as
`none`) one second past 9999-12-31T23:59:59Z and one second before
0001-01-01T00:00:00Z — the converter does not produce a round-tripping
instant for every integer timestamp. -/
theorem C7_counterexample_out_of_range_timestamp :
    dt_from_timestamp_utc 253402300800 = none
    ∧ dt_from_timestamp_utc (-62135596801) = none := by
  constructor <;> decide

/-- Claim C7 as amended: for every integer UNIX timestamp in the
representable range `-62135596800 ≤ t ≤ 253402300799` (years 1..9999), the
converter yields a UTC-zoned instant whose derived timestamp is `t` again,
and loading `ForecastDataSchema` on a raw mapping carrying `dt` retains both
representations: the converted instant under `dt_value` and the raw integer
under its sibling `dt_timestamp`, both loaded from the same `dt` source
key. -/
theorem C7_amended_timestamp_roundtrip_and_sibling (t : Int)
    (hlo : -62135596800 ≤ t) (hhi : t ≤ 253402300799) :
    ∃ d, dt_from_timestamp_utc t = some d
      ∧ pyTimestamp d = some t
      ∧ d.utcoffset = some 0
      ∧ loadFields ForecastDataSchema [("dt", .num t)]
          = ([("dt_value", .pydt d), ("dt_timestamp", .num t)], []) := by
  obtain ⟨d, hd1, hd2, hd3⟩ := dt_from_timestamp_utc_roundtrip t hlo hhi
  refine ⟨d, hd1, hd2, hd3, ?_⟩
  simp [ForecastDataSchema, MainDataSchema, WeatherDataSchema, CloudDataSchema,
    WindDataSchema, RainDataSchema, SnowDataSchema, loadFields, loadFieldValue,
    lookupKey, hd1]

/-- Witness for the amended C7 at a concrete timestamp. -/
theorem C7_amended_timestamp_roundtrip_and_sibling_witness :
    ∃ d, dt_from_timestamp_utc 1469109616 = some d
      ∧ pyTimestamp d = some 1469109616
      ∧ d.utcoffset = some 0
      ∧ loadFields ForecastDataSchema [("dt", .num 1469109616)]
          = ([("dt_value", .pydt d), ("dt_timestamp", .num 1469109616)], []) :=
  C7_amended_timestamp_roundtrip_and_sibling 1469109616 (by norm_num) (by norm_num)

end OWM
